import Mathlib

/-!
# hasura-secret-refresh: request rewriting and the IAM-token file provider

A shallow embedding of `server/rewrite_request.go` and
`provider/aws_iam_auth_rds/provider.go`.

Conventions of the embedding:

* a Go `error` is an `Option String`: `none` is `nil`, `some m` is an error
  whose `Error()` text is `m`;
* a Go function returning `(v, err)` returns a Lean pair, so the value that
  accompanies a non-nil error stays visible;
* a Go pointer `*T` is an `Option T`, `none` being `nil`;
* effects (HTTP response writes, log calls, standard output, sleeps, the cache
  file) are recorded in an explicit state that is threaded through the code.
-/

/-- One call of a zerolog event chain ending in `Msg`/`Msgf`: the level, the
error attached with `Err`, the format string and its arguments as passed (a
`time.Duration` is recorded as its count of nanoseconds). -/
structure LogEntry where
  level : String
  err : Option String
  format : String
  args : List String
deriving DecidableEq, Repr

namespace server

/-- Go `http.StatusBadRequest`. -/
def StatusBadRequest : Nat := 400

/-- What has been written to an `http.ResponseWriter`: status code and body. -/
structure Response where
  status : Nat
  body : String
deriving DecidableEq, Repr

/-- The observable state of an `http.ResponseWriter`: the responses written so far. -/
abbrev ResponseWriter := List Response

/-- Go `http.Error(w, error, code)`: writes the status code, then the text
followed by a newline (`fmt.Fprintln`). -/
def httpError (rw : ResponseWriter) (error : String) (code : Nat) : ResponseWriter :=
  rw ++ [{ status := code, body := error ++ "\n" }]

/-- Go `http.Header`, a `map[string][]string`, as an association list. -/
abbrev Header := List (String × List String)

/-- Go `textproto.validHeaderFieldByte`: the RFC 7230 token characters. -/
def validHeaderFieldByte (c : Char) : Bool :=
  c.isAlphanum ||
    [33, 35, 36, 37, 38, 39, 42, 43, 45, 46, 94, 95, 96, 124, 126].contains c.toNat

/-- The canonicalisation loop of Go `textproto.canonicalMIMEHeaderKey`: upper
case for the first letter and for a letter after a dash, lower case elsewhere. -/
def canonicalLoop : Bool → List Char → List Char
  | _, [] => []
  | upper, c :: cs =>
    let c1 := if upper && c.isLower then c.toUpper
              else if !upper && c.isUpper then c.toLower
              else c
    c1 :: canonicalLoop (c1 == '-') cs

/-- Go `textproto.CanonicalMIMEHeaderKey`: a key holding a byte that is not a
token character is returned unchanged, any other key is canonicalised. -/
def CanonicalMIMEHeaderKey (s : String) : String :=
  if s.data.all validHeaderFieldByte then String.mk (canonicalLoop true s.data) else s

/-- Go `Header.Del(key)`: `delete(h, CanonicalMIMEHeaderKey(key))`. -/
def Header.Del (h : Header) (key : String) : Header :=
  h.filter (fun e => e.1 != CanonicalMIMEHeaderKey key)

/-- Go `Header.Set(key, value)`: `h[CanonicalMIMEHeaderKey(key)] = []string{value}`. -/
def Header.Set (h : Header) (key value : String) : Header :=
  (CanonicalMIMEHeaderKey key, [value]) :: h.filter (fun e => e.1 != CanonicalMIMEHeaderKey key)

/-- The header-derived request configuration; the fields are those that
`rewrite_request.go` reads. -/
structure RequestConfig where
  DestinationUrl : String
  SecretProvider : String
  SecretId : String
  HeaderTemplate : String
deriving DecidableEq, Repr

/-- The part of an `http.Request` the rewrite code touches. `U` is the type of
URL values (`url.URL`). -/
structure Request (U : Type) where
  URL : U
  Host : String
  Header : Header

/-- Go `httputil.ProxyRequest`: the inbound request and the outbound one. -/
structure ProxyRequest (U : Type) where
  In : Request U
  Out : Request U

/-- The `provider.Provider` interface: `GetSecret(secretId) (string, error)`. -/
structure Provider where
  GetSecret : String → String × Option String

/-- Declarations of package `server` that `rewrite_request.go` uses and that
live in other files: they are parameters of the embedding. `RequestConfigs`
is given by its key set, the reserved configuration header names. -/
structure Env (U : Type) where
  GetRequestConfig : Header → RequestConfig × Option String
  ParseUrl : String → Option U × Option String
  GetUrlWithSchemeAndHost : Option U → Option U
  GetHeaderFromTemplate : String → String → String × String × Option String
  MakeHasuraError : String → String
  RequestConfigs : List String
  SecretProviderHeader : String
  SecretIdHeader : String
  TemplateHeader : String

/-- A call made on the providers map or on a provider. -/
inductive Event where
  | lookup (name : String)
  | getSecret (name : String) (secretId : String)
deriving DecidableEq, Repr

/-- The effects of handling one request: the response writer, the request
logger calls and the provider calls. -/
structure Effects where
  rw : ResponseWriter
  log : List LogEntry
  events : List Event
deriving DecidableEq, Repr

variable {U : Type}

/-- The function `getRequestConfig` of `rewrite_request.go`. -/
def getRequestConfig (env : Env U) (r : Request U) (st : Effects) :
    RequestConfig × Bool × Effects :=
  let res := env.GetRequestConfig r.Header
  match res.2 with
  | some e =>
    (res.1, false,
      { st with
        log := st.log ++ [{ level := "error", err := some e, format := e, args := [] }]
        rw := httpError st.rw (env.MakeHasuraError e) StatusBadRequest })
  | none => (res.1, true, st)

/-- The function `parseDestinationUrl` of `rewrite_request.go`. -/
def parseDestinationUrl (env : Env U) (requestConfig : RequestConfig) (st : Effects) :
    Option U × Bool × Effects :=
  let res := env.ParseUrl requestConfig.DestinationUrl
  match res.2 with
  | some e =>
    (res.1, false,
      { st with
        log := st.log ++ [{ level := "error", err := none, format := e, args := [] }]
        rw := httpError st.rw (env.MakeHasuraError e) StatusBadRequest })
  | none => (env.GetUrlWithSchemeAndHost res.1, true, st)

/-- The message built in `getProvider`:
`fmt.Sprintf("Provider name %s sent in header %s does not exist", ...)`. -/
def providerErrMsg (env : Env U) (requestConfig : RequestConfig) : String :=
  "Provider name " ++ requestConfig.SecretProvider ++ " sent in header " ++
    env.SecretProviderHeader ++ " does not exist"

/-- The function `getProvider` of `rewrite_request.go`; the map read is recorded. -/
def getProvider (env : Env U) (providers : List (String × Provider))
    (requestConfig : RequestConfig) (st : Effects) : Option Provider × Bool × Effects :=
  let st1 := { st with events := st.events ++ [Event.lookup requestConfig.SecretProvider] }
  match providers.lookup requestConfig.SecretProvider with
  | none =>
    let errMsg := providerErrMsg env requestConfig
    (none, false,
      { st1 with
        log := st1.log ++ [{ level := "error", err := none, format := errMsg, args := [] }]
        rw := httpError st1.rw (env.MakeHasuraError errMsg) StatusBadRequest })
  | some p => (some p, true, st1)

/-- The message built in `getSecret`:
`fmt.Sprintf("Unable to fetch secret %s sent in header %s", ...)`. -/
def secretErrMsg (env : Env U) (requestConfig : RequestConfig) : String :=
  "Unable to fetch secret " ++ requestConfig.SecretId ++ " sent in header " ++ env.SecretIdHeader

/-- The function `getSecret` of `rewrite_request.go`; the provider call is recorded. -/
def getSecret (env : Env U) (requestConfig : RequestConfig) (provider : Provider)
    (st : Effects) : String × Bool × Effects :=
  let st1 := { st with
    events := st.events ++ [Event.getSecret requestConfig.SecretProvider requestConfig.SecretId] }
  let res := provider.GetSecret requestConfig.SecretId
  match res.2 with
  | some e =>
    let errMsg := secretErrMsg env requestConfig
    (res.1, false,
      { st1 with
        log := st1.log ++ [{ level := "error", err := some e, format := errMsg, args := [] }]
        rw := httpError st1.rw (env.MakeHasuraError errMsg) StatusBadRequest })
  | none => (res.1, true, st1)

/-- The message built in `getHeader`:
`fmt.Sprintf("Header template %s sent in header %s is not valid", ...)`. -/
def templateErrMsg (env : Env U) (requestConfig : RequestConfig) : String :=
  "Header template " ++ requestConfig.HeaderTemplate ++ " sent in header " ++
    env.TemplateHeader ++ " is not valid"

/-- The function `getHeader` of `rewrite_request.go`. -/
def getHeader (env : Env U) (secret : String) (requestConfig : RequestConfig)
    (st : Effects) : String × String × Bool × Effects :=
  let res := env.GetHeaderFromTemplate requestConfig.HeaderTemplate secret
  match res.2.2 with
  | some e =>
    let errMsg := templateErrMsg env requestConfig
    (res.1, res.2.1, false,
      { st with
        log := st.log ++ [{ level := "error", err := some e, format := errMsg, args := [] }]
        rw := httpError st.rw (env.MakeHasuraError errMsg) StatusBadRequest })
  | none => (res.1, res.2.1, true, st)

/-- The named results of `GetRequestRewriteDetails` together with the effects. -/
structure Details (U : Type) where
  url : Option U
  headerKey : String
  headerVal : String
  eff : Effects

/-- The function `GetRequestRewriteDetails` of `rewrite_request.go`. The named
results start at their zero values and every bare `return` hands back what has
been assigned so far. -/
def GetRequestRewriteDetails (env : Env U) (st : Effects) (r : Request U)
    (providers : List (String × Provider)) : Details U :=
  let (requestConfig, ok, st) := getRequestConfig env r st
  if !ok then { url := none, headerKey := "", headerVal := "", eff := st } else
  let (url, ok, st) := parseDestinationUrl env requestConfig st
  if !ok then { url := url, headerKey := "", headerVal := "", eff := st } else
  let (provider, ok, st) := getProvider env providers requestConfig st
  if !ok then { url := url, headerKey := "", headerVal := "", eff := st } else
  match provider with
  -- `getProvider` never returns `ok` without a provider
  | none => { url := url, headerKey := "", headerVal := "", eff := st }
  | some provider =>
  let (_secret, ok, st1) := getSecret env requestConfig provider st
  if !ok then { url := url, headerKey := "", headerVal := "", eff := st1 } else
  let (headerKey, headerVal, _, st2) := getHeader env _secret requestConfig st1
  { url := url, headerKey := headerKey, headerVal := headerVal, eff := st2 }

/-- Go `ProxyRequest.SetURL(target)`: rewrites the outbound URL from the
target and clears the outbound `Host`; a nil target is a nil dereference
(`none`). `rewriteRequestURL target old` stands for the URL arithmetic of the
standard library, which leaves the headers alone. -/
def SetURL (rewriteRequestURL : U → U → U) (req : ProxyRequest U) (target : Option U) :
    Option (ProxyRequest U) :=
  match target with
  | none => none
  | some t =>
    some { req with Out := { req.Out with URL := rewriteRequestURL t req.Out.URL, Host := "" } }

/-- The closure returned by `GetRequestRewriter(url, headerKey, headerVal)`:
`none` when the closure panics. -/
def GetRequestRewriter (env : Env U) (rewriteRequestURL : U → U → U)
    (url : Option U) (headerKey headerVal : String) (req : ProxyRequest U) :
    Option (ProxyRequest U) :=
  let out := { req.Out with Header := env.RequestConfigs.foldl Header.Del req.Out.Header }
  match SetURL rewriteRequestURL { req with Out := out } url with
  | none => none
  | some req1 =>
    some { req1 with Out := { req1.Out with Header := req1.Out.Header.Set headerKey headerVal } }

end server

namespace aws_iam_auth_rds

/-- Go `time.Second` in nanoseconds, the unit of `time.Duration`. -/
def Second : Int := 1000000000

/-- Go `time.Minute`. -/
def Minute : Int := 60 * Second

/-- The constant `defaultTtl` of `provider.go`; no function reads it. -/
def defaultTtl : Int := Minute * 15

/-- A `sync.Mutex`; between two calls of the sequential model it is unlocked. -/
structure Mutex where
deriving DecidableEq, Repr

/-- The struct `AWSIAMAuthRDSFile`; the logger is replaced by the log recorded
in `World`. `mu` is a pointer, nil until `New` sets it. -/
structure AWSIAMAuthRDSFile where
  Region : String
  DBName : String
  DBUser : String
  DBHost : String
  DBPort : Int
  FilePath : String
  mu : Option Mutex
  refreshInterval : Int
deriving DecidableEq, Repr

/-- The function `New`. `Marshal` and `Unmarshal` stand for `json.Marshal` on
the input map and `json.Unmarshal` into a zero `AWSIAMAuthRDSFile`. -/
def New {C B : Type} (Marshal : C → B × Option String)
    (Unmarshal : B → AWSIAMAuthRDSFile × Option String) (inputCfg : C) :
    Option AWSIAMAuthRDSFile × Option String :=
  let c := Marshal inputCfg
  match c.2 with
  | some e => (none, some e)
  | none =>
    let provider := Unmarshal c.1
    match provider.2 with
    | some e => (none, some e)
    | none => (some { provider.1 with refreshInterval := 300 * Second, mu := some {} }, none)

/-- How a call of Go `os.WriteFile` ends. The file is opened with
`O_WRONLY|O_CREATE|O_TRUNC`, written and closed: the call succeeds, or fails
at the open (file untouched), or fails after the truncation with the first
`n` bytes of the data written. -/
inductive WriteOutcome where
  | ok
  | openErr (e : String)
  | writeErr (n : Nat) (e : String)
deriving DecidableEq, Repr

/-- A write that either stores the whole data or leaves the file untouched. -/
def WriteOutcome.allOrNothing : WriteOutcome → Bool
  | .ok => true
  | .openErr _ => true
  | .writeErr _ _ => false

/-- Go `os.WriteFile(name, data, perm)` on the one file of interest: the new
content (`none` when the file does not exist) and the error. -/
def osWriteFile (o : WriteOutcome) (data : String) (file : Option String) :
    Option String × Option String :=
  match o with
  | .ok => (some data, none)
  | .openErr e => (file, some e)
  | .writeErr n e => (some (String.mk (data.data.take n)), some e)

/-- The answers of the outside world during one refresh attempt:
`config.LoadDefaultConfig`, `auth.BuildAuthToken(endpoint, region, user)`,
`sql.Open(driver, dsn)`, `db.Ping()` and the write of the cache file. -/
structure Oracle where
  LoadDefaultConfig : Option String
  BuildAuthToken : String → String → String → String × Option String
  sqlOpen : String → String → Option String
  Ping : Option String
  WriteFile : WriteOutcome

/-- The state the provider acts on: the content of the file at `FilePath`
(`none` when it does not exist), the lines printed to standard output, the
logger calls and the durations slept. `lastGood` is a specification-only
field the code never reads: the token of the most recent loop iteration that
passed `sql.Open` and `db.Ping` and whose write returned no error. -/
structure World where
  file : Option String
  stdout : List String
  log : List LogEntry
  sleeps : List Int
  lastGood : Option String
deriving DecidableEq, Repr

/-- Go `time.Sleep(d)`. -/
def timeSleep (d : Int) (w : World) : World :=
  { w with sleeps := w.sleeps ++ [d] }

/-- A logger call. -/
def logMsg (level : String) (err : Option String) (format : String) (args : List String)
    (w : World) : World :=
  { w with log := w.log ++ [{ level := level, err := err, format := format, args := args }] }

/-- The method `getSecret` of `provider.go`: mints a token. -/
def getSecret (provider : AWSIAMAuthRDSFile) (o : Oracle) (w : World) :
    (String × Option String) × World :=
  let dbEndpoint := provider.DBHost ++ ":" ++ toString provider.DBPort
  match o.LoadDefaultConfig with
  | some e => (("", some e), logMsg "error" (some e) "auth configuration error :%s" [e] w)
  | none =>
    let res := o.BuildAuthToken dbEndpoint provider.Region provider.DBUser
    match res.2 with
    | some e => (("", some e), logMsg "error" (some e) "error creating token :%s" [e] w)
    | none => ((res.1, none), w)

/-- The method `writeFile` of `provider.go`: `none` is the nil dereference of
`provider.mu.Lock()` on a provider without mutex. -/
def writeFile (provider : AWSIAMAuthRDSFile) (o : WriteOutcome) (secretString : String)
    (w : World) : Option (Option String × World) :=
  match provider.mu with
  | none => none
  | some _ =>
    let res := osWriteFile o secretString w.file
    match res.2 with
    | some e =>
      some (some e,
        logMsg "error" (some e) "error occurred while writing secret to file %s"
          [provider.FilePath] { w with file := res.1 })
    | none => some (none, { w with file := res.1 })

/-- The connection string built in `Start`:
`fmt.Sprintf("host=%s port=%d user=%s password=%s dbname=%s", ...)`. -/
def dsn (provider : AWSIAMAuthRDSFile) (authenticationToken : String) : String :=
  "host=" ++ provider.DBHost ++ " port=" ++ toString provider.DBPort ++ " user=" ++
    provider.DBUser ++ " password=" ++ authenticationToken ++ " dbname=" ++ provider.DBName

/-- The state after the two `fmt.Println` calls of an iteration in which
minting succeeded. -/
def printed (provider : AWSIAMAuthRDSFile) (o : Oracle) (w : World) : World :=
  { (getSecret provider o w).2 with
    stdout := (getSecret provider o w).2.stdout ++
      ["DSN\n", dsn provider (getSecret provider o w).1.1 ++ "\n"] }

/-- One iteration of the `for` loop of `Start`; `none` is a panic. Every
branch of the source ends in `continue` or reaches the end of the body. -/
def loopBody (provider : AWSIAMAuthRDSFile) (o : Oracle) (w : World) : Option World :=
  let res := getSecret provider o w
  match res.1.2 with
  | some _ => some (timeSleep provider.refreshInterval res.2)
  | none =>
    let authenticationToken := res.1.1
    let w1 := { res.2 with
      stdout := res.2.stdout ++ ["DSN\n", dsn provider authenticationToken ++ "\n"] }
    match o.sqlOpen "postgres" (dsn provider authenticationToken) with
    | some e =>
      some (timeSleep provider.refreshInterval
        (logMsg "error" (some e) "failed to connect with generated token" [] w1))
    | none =>
      match o.Ping with
      | some e =>
        some (timeSleep provider.refreshInterval
          (logMsg "error" (some e) "failed to ping the database with the generated token" [] w1))
      | none =>
        match writeFile provider o.WriteFile authenticationToken w1 with
        | none => none
        | some (some e, w2) =>
          some (timeSleep provider.refreshInterval
            (logMsg "error" (some e) "failed to write token to a file. Retrying ..." [] w2))
        | some (none, w2) =>
          some (timeSleep provider.refreshInterval
            (logMsg "info" none
              "successfully fetched IAM Token and written to the file. Fetching again in %s"
              [toString provider.refreshInterval]
              { w2 with lastGood := some authenticationToken }))

/-- The `for` loop of `Start`, run for as many iterations as there are
oracles: the loop itself never ends. -/
def loop (provider : AWSIAMAuthRDSFile) : List Oracle → World → Option World
  | [], w => some w
  | o :: os, w =>
    match loopBody provider o w with
    | none => none
    | some w1 => loop provider os w1

/-- The method `Start`: the initial write of the empty cache file, then the
loop. The specification-only field `lastGood` starts empty. -/
def Start (provider : AWSIAMAuthRDSFile) (init : WriteOutcome) (os : List Oracle)
    (w : World) : Option World :=
  let res := osWriteFile init "" w.file
  let w1 := { w with file := res.1, lastGood := none }
  let w2 := match res.2 with
    | some e =>
      logMsg "error" (some e) "error occured while writing to a file :%s" [provider.FilePath] w1
    | none => w1
  loop provider os w2

/-- The method `Refresh`: the returned error and the new state; `none` is a panic. -/
def Refresh (provider : AWSIAMAuthRDSFile) (o : Oracle) (w : World) :
    Option (Option String × World) :=
  let res := getSecret provider o w
  match res.1.2 with
  | some e => some (some e, res.2)
  | none =>
    match writeFile provider o.WriteFile res.1.1 res.2 with
    | none => none
    | some (some e, w1) => some (some e, w1)
    | some (none, w1) =>
      some (none,
        logMsg "info" none
          "aws_iam_auth_rds_file: Successfully fetched IAM Token. Fetching again in %s"
          [toString provider.refreshInterval] w1)

/-- The property claimed of the cache: the file is empty, or holds the most
recent token that was validated and then written. -/
def CacheInvariant (w : World) : Prop :=
  w.file = some "" ∨ ∃ t, w.lastGood = some t ∧ w.file = some t

/-- The outcome the amended cache property speaks of, read off the answers of
the outside world alone: the token of an attempt in which the mint
(`config.LoadDefaultConfig` and `auth.BuildAuthToken`), `sql.Open` on the
connection string of that token, `db.Ping` and the write of the cache file all
succeed; `none` for any other attempt. -/
def validatedToken (provider : AWSIAMAuthRDSFile) (o : Oracle) : Option String :=
  match o.LoadDefaultConfig with
  | some _ => none
  | none =>
    match o.BuildAuthToken (provider.DBHost ++ ":" ++ toString provider.DBPort)
        provider.Region provider.DBUser with
    | (_, some _) => none
    | (tok, none) =>
      match o.sqlOpen "postgres" (dsn provider tok), o.Ping, o.WriteFile with
      | none, none, .ok => some tok
      | _, _, _ => none

/-- The token of the most recent attempt, in a sequence of attempts given in
the order they are made, that was minted, validated and written; `none` when
no attempt was. -/
def lastValidated (provider : AWSIAMAuthRDSFile) : List Oracle → Option String
  | [] => none
  | o :: os =>
    match lastValidated provider os with
    | some t => some t
    | none => validatedToken provider o

/-- A provider as `New` builds it. -/
def sampleProvider : AWSIAMAuthRDSFile :=
  { Region := "us-east-1", DBName := "app", DBUser := "iam_user", DBHost := "db.example.com",
    DBPort := 5432, FilePath := "/tmp/token", mu := some {}, refreshInterval := 300 * Second }

/-- A state in which the cache file does not exist yet. -/
def sampleWorld : World :=
  { file := none, stdout := [], log := [], sleeps := [], lastGood := none }

/-- A state in which the cache file holds an earlier token. -/
def cachedWorld : World :=
  { file := some "old-token", stdout := [], log := [], sleeps := [], lastGood := some "old-token" }

/-- An attempt in which every external call succeeds and the token `tok` is minted. -/
def mintOk (tok : String) : Oracle :=
  { LoadDefaultConfig := none, BuildAuthToken := fun _ _ _ => (tok, none),
    sqlOpen := fun _ _ => none, Ping := none, WriteFile := .ok }

/-- An attempt in which `auth.BuildAuthToken` fails. -/
def mintFails : Oracle :=
  { LoadDefaultConfig := none, BuildAuthToken := fun _ _ _ => ("", some "no credentials"),
    sqlOpen := fun _ _ => none, Ping := none, WriteFile := .ok }

/-- An attempt in which the token `tok` is minted and validated and the write
of the cache file fails after two bytes. -/
def writeTorn (tok : String) : Oracle :=
  { LoadDefaultConfig := none, BuildAuthToken := fun _ _ _ => (tok, none),
    sqlOpen := fun _ _ => none, Ping := none, WriteFile := .writeErr 2 "no space left on device" }

/-- An attempt in which the token `tok` is minted and `db.Ping` rejects it. -/
def pingFails (tok : String) : Oracle :=
  { LoadDefaultConfig := none, BuildAuthToken := fun _ _ _ => (tok, none),
    sqlOpen := fun _ _ => none, Ping := some "password authentication failed",
    WriteFile := .ok }

/-- An attempt in which the token `tok` is minted and `sql.Open` rejects it. -/
def openFails (tok : String) : Oracle :=
  { LoadDefaultConfig := none, BuildAuthToken := fun _ _ _ => (tok, none),
    sqlOpen := fun _ _ => some "invalid connection string", Ping := none,
    WriteFile := .ok }

/-- A decoder whose result carries a refresh interval of seven nanoseconds and no mutex. -/
def sampleUnmarshal (_ : String) : AWSIAMAuthRDSFile × Option String :=
  ({ sampleProvider with mu := none, refreshInterval := 7 }, none)

end aws_iam_auth_rds

namespace server

/-- A sample instance of the declarations `Env` stands for, used to evaluate
the code on concrete requests: the four reserved headers are read verbatim, an
empty destination does not parse, and one template is understood. -/
def sampleEnv : Env String :=
  { GetRequestConfig := fun h =>
      match h.lookup "X-Hasura-Forward-To", h.lookup "X-Hasura-Secret-Provider",
        h.lookup "X-Hasura-Secret-Id", h.lookup "X-Hasura-Secret-Header" with
      | some [d], some [p], some [i], some [t] =>
        ({ DestinationUrl := d, SecretProvider := p, SecretId := i, HeaderTemplate := t }, none)
      | _, _, _, _ =>
        ({ DestinationUrl := "", SecretProvider := "", SecretId := "", HeaderTemplate := "" },
          some "required header not found")
    ParseUrl := fun s => if s = "" then (none, some "empty url") else (some s, none)
    GetUrlWithSchemeAndHost := fun u => u
    GetHeaderFromTemplate := fun template secret =>
      if template = "Authorization: Bearer ##secret##" then
        ("Authorization", "Bearer " ++ secret, none)
      else ("", "", some "invalid template")
    MakeHasuraError := fun m => "error: " ++ m
    RequestConfigs := ["X-Hasura-Forward-To", "X-Hasura-Secret-Provider", "X-Hasura-Secret-Id",
      "X-Hasura-Secret-Header"]
    SecretProviderHeader := "X-Hasura-Secret-Provider"
    SecretIdHeader := "X-Hasura-Secret-Id"
    TemplateHeader := "X-Hasura-Secret-Header" }

/-- A request carrying the four reserved headers and naming the given provider. -/
def sampleRequest (provider : String) : Request String :=
  { URL := "/", Host := "proxy.local"
    Header := [("X-Hasura-Forward-To", ["https://api.example.com/v1"]),
      ("X-Hasura-Secret-Provider", [provider]), ("X-Hasura-Secret-Id", ["s1"]),
      ("X-Hasura-Secret-Header", ["Authorization: Bearer ##secret##"])] }

/-- A request without the destination header. -/
def bareRequest : Request String :=
  { URL := "/", Host := "proxy.local"
    Header := [("X-Hasura-Secret-Provider", ["static"]), ("X-Hasura-Secret-Id", ["s1"]),
      ("X-Hasura-Secret-Header", ["Authorization: Bearer ##secret##"])] }

/-- A provider that knows the secret `s1`. -/
def staticProvider : Provider :=
  { GetSecret := fun id => if id = "s1" then ("tok123", none) else ("", some "not found") }

/-- A providers map with the single entry `static`. -/
def sampleProviders : List (String × Provider) := [("static", staticProvider)]

/-- The effects before a request is handled. -/
def noEffects : Effects := { rw := [], log := [], events := [] }

/-- An outbound proxy request that still carries the reserved headers. -/
def sampleProxyRequest : ProxyRequest String :=
  { In := sampleRequest "static"
    Out := { sampleRequest "static" with
      Header := ("Accept", ["text/html"]) :: (sampleRequest "static").Header } }

/-- A stand-in for the URL arithmetic of `SetURL`: the target replaces the URL. -/
def sampleRewriteURL (target _old : String) : String := target

end server

namespace server

variable {U : Type}

/-- Claim C1: when `GetRequestConfig` returns an error, or `ParseUrl` returns
an error on the configured destination, `GetRequestRewriteDetails` writes
exactly one response, with status 400 and the error text passed through
`MakeHasuraError`, and makes no call on the providers map or on a provider. -/
theorem GetRequestRewriteDetails_config_or_url_error
    (env : Env U) (st : Effects) (r : Request U) (providers : List (String × Provider))
    (h : (env.GetRequestConfig r.Header).2 ≠ none ∨
      (env.ParseUrl (env.GetRequestConfig r.Header).1.DestinationUrl).2 ≠ none) :
    ∃ e : String,
      ((env.GetRequestConfig r.Header).2 = some e ∨
        ((env.GetRequestConfig r.Header).2 = none ∧
          (env.ParseUrl (env.GetRequestConfig r.Header).1.DestinationUrl).2 = some e)) ∧
      (GetRequestRewriteDetails env st r providers).eff.rw =
        st.rw ++ [{ status := 400, body := env.MakeHasuraError e ++ "\n" }] ∧
      (GetRequestRewriteDetails env st r providers).eff.events = st.events := by
  unfold GetRequestRewriteDetails getRequestConfig
  cases hc : (env.GetRequestConfig r.Header).2 with
  | some e =>
    exact ⟨e, Or.inl rfl, by simp [hc, httpError, StatusBadRequest], by simp [hc]⟩
  | none =>
    have hp : (env.ParseUrl (env.GetRequestConfig r.Header).1.DestinationUrl).2 ≠ none := by
      rcases h with h | h
      · exact absurd hc h
      · exact h
    obtain ⟨e, he⟩ := Option.ne_none_iff_exists'.mp hp
    refine ⟨e, Or.inr ⟨rfl, he⟩, ?_, ?_⟩
    · simp [hc, parseDestinationUrl, he, httpError, StatusBadRequest]
    · simp [hc, parseDestinationUrl, he]

/-- The theorem of claim C1 at a request that lacks the destination header. -/
theorem GetRequestRewriteDetails_config_or_url_error_witness :
    ((sampleEnv.GetRequestConfig bareRequest.Header).2 ≠ none ∨
      (sampleEnv.ParseUrl
        (sampleEnv.GetRequestConfig bareRequest.Header).1.DestinationUrl).2 ≠ none) ∧
    ∃ e : String,
      ((sampleEnv.GetRequestConfig bareRequest.Header).2 = some e ∨
        ((sampleEnv.GetRequestConfig bareRequest.Header).2 = none ∧
          (sampleEnv.ParseUrl
            (sampleEnv.GetRequestConfig bareRequest.Header).1.DestinationUrl).2 = some e)) ∧
      (GetRequestRewriteDetails sampleEnv noEffects bareRequest sampleProviders).eff.rw =
        noEffects.rw ++ [{ status := 400, body := sampleEnv.MakeHasuraError e ++ "\n" }] ∧
      (GetRequestRewriteDetails sampleEnv noEffects bareRequest sampleProviders).eff.events =
        noEffects.events :=
  ⟨Or.inl (by decide),
    GetRequestRewriteDetails_config_or_url_error sampleEnv noEffects bareRequest sampleProviders
      (Or.inl (by decide))⟩

/-- Claim C2: when configuration extraction and URL parsing succeed and the
configured provider name is not a key of the providers map,
`GetRequestRewriteDetails` writes one response with status 400 whose message,
the text handed to `MakeHasuraError`, contains the provider name and
`SecretProviderHeader`; the only call made is the map lookup, `GetSecret` is
not called. -/
theorem GetRequestRewriteDetails_unknown_provider
    (env : Env U) (st : Effects) (r : Request U) (providers : List (String × Provider))
    (hcfg : (env.GetRequestConfig r.Header).2 = none)
    (hurl : (env.ParseUrl (env.GetRequestConfig r.Header).1.DestinationUrl).2 = none)
    (hmiss : providers.lookup (env.GetRequestConfig r.Header).1.SecretProvider = none) :
    (GetRequestRewriteDetails env st r providers).eff.rw =
        st.rw ++ [{ status := 400,
                    body := env.MakeHasuraError
                      (providerErrMsg env (env.GetRequestConfig r.Header).1) ++ "\n" }] ∧
      (env.GetRequestConfig r.Header).1.SecretProvider.data <:+:
        (providerErrMsg env (env.GetRequestConfig r.Header).1).data ∧
      env.SecretProviderHeader.data <:+:
        (providerErrMsg env (env.GetRequestConfig r.Header).1).data ∧
      (GetRequestRewriteDetails env st r providers).eff.events =
        st.events ++ [Event.lookup (env.GetRequestConfig r.Header).1.SecretProvider] := by
  refine ⟨?_, ?_, ?_, ?_⟩
  · simp [GetRequestRewriteDetails, getRequestConfig, hcfg, parseDestinationUrl, hurl,
      getProvider, hmiss, httpError, StatusBadRequest]
  · refine ⟨"Provider name ".data,
      (" sent in header " ++ env.SecretProviderHeader ++ " does not exist").data, ?_⟩
    simp [providerErrMsg, String.data_append, List.append_assoc]
  · refine ⟨("Provider name " ++ (env.GetRequestConfig r.Header).1.SecretProvider ++
      " sent in header ").data, " does not exist".data, ?_⟩
    simp [providerErrMsg, String.data_append, List.append_assoc]
  · simp [GetRequestRewriteDetails, getRequestConfig, hcfg, parseDestinationUrl, hurl,
      getProvider, hmiss]

/-- The theorem of claim C2 at a request that names the provider `unknown`. -/
theorem GetRequestRewriteDetails_unknown_provider_witness :
    (sampleEnv.GetRequestConfig (sampleRequest "unknown").Header).2 = none ∧
    (sampleEnv.ParseUrl
      (sampleEnv.GetRequestConfig (sampleRequest "unknown").Header).1.DestinationUrl).2 = none ∧
    (GetRequestRewriteDetails sampleEnv noEffects (sampleRequest "unknown")
        sampleProviders).eff.rw =
      [{ status := 400,
         body := "error: Provider name unknown sent in header X-Hasura-Secret-Provider does not exist\n" }] ∧
    (GetRequestRewriteDetails sampleEnv noEffects (sampleRequest "unknown")
        sampleProviders).eff.events = [Event.lookup "unknown"] :=
  ⟨by decide, by decide,
    (GetRequestRewriteDetails_unknown_provider sampleEnv noEffects (sampleRequest "unknown")
      sampleProviders (by decide) (by decide) rfl).1.trans (by decide),
    (GetRequestRewriteDetails_unknown_provider sampleEnv noEffects (sampleRequest "unknown")
      sampleProviders (by decide) (by decide) rfl).2.2.2.trans (by decide)⟩

/-- Counterexample to claim C3 as stated: the request names an unknown
provider, an error response is written, and the returned `url` is not nil
while `headerKey` and `headerVal` are empty. -/
theorem GetRequestRewriteDetails_partial_on_unknown_provider :
    (GetRequestRewriteDetails sampleEnv noEffects (sampleRequest "unknown")
        sampleProviders).eff.rw =
      [{ status := 400,
         body := "error: Provider name unknown sent in header X-Hasura-Secret-Provider does not exist\n" }] ∧
    (GetRequestRewriteDetails sampleEnv noEffects (sampleRequest "unknown") sampleProviders).url =
      some "https://api.example.com/v1" ∧
    (GetRequestRewriteDetails sampleEnv noEffects (sampleRequest "unknown")
        sampleProviders).headerKey = "" ∧
    (GetRequestRewriteDetails sampleEnv noEffects (sampleRequest "unknown")
        sampleProviders).headerVal = "" := by
  decide

/-- Claim C8: when `GetRequestConfig`, `ParseUrl`, the provider lookup,
`GetSecret` and `GetHeaderFromTemplate` all succeed, no response is written,
`url` is `GetUrlWithSchemeAndHost` of the parsed destination, the header pair
is the one rendered from the template and the secret, and the provider calls
are one lookup followed by one `GetSecret(cfg.SecretId)`. -/
theorem GetRequestRewriteDetails_success
    (env : Env U) (st : Effects) (r : Request U) (providers : List (String × Provider))
    (p : Provider) (secret k v : String)
    (hcfg : (env.GetRequestConfig r.Header).2 = none)
    (hurl : (env.ParseUrl (env.GetRequestConfig r.Header).1.DestinationUrl).2 = none)
    (hprov : providers.lookup (env.GetRequestConfig r.Header).1.SecretProvider = some p)
    (hsec : p.GetSecret (env.GetRequestConfig r.Header).1.SecretId = (secret, none))
    (htmpl : env.GetHeaderFromTemplate (env.GetRequestConfig r.Header).1.HeaderTemplate secret
      = (k, v, none)) :
    (GetRequestRewriteDetails env st r providers).eff.rw = st.rw ∧
    (GetRequestRewriteDetails env st r providers).url =
      env.GetUrlWithSchemeAndHost
        (env.ParseUrl (env.GetRequestConfig r.Header).1.DestinationUrl).1 ∧
    (GetRequestRewriteDetails env st r providers).headerKey = k ∧
    (GetRequestRewriteDetails env st r providers).headerVal = v ∧
    (GetRequestRewriteDetails env st r providers).eff.events =
      st.events ++ [Event.lookup (env.GetRequestConfig r.Header).1.SecretProvider,
        Event.getSecret (env.GetRequestConfig r.Header).1.SecretProvider
          (env.GetRequestConfig r.Header).1.SecretId] := by
  simp [GetRequestRewriteDetails, getRequestConfig, hcfg, parseDestinationUrl, hurl,
    getProvider, hprov, getSecret, hsec, getHeader, htmpl]

/-- The theorem of claim C8 at the request of the first end-to-end scenario. -/
theorem GetRequestRewriteDetails_success_witness :
    (sampleEnv.GetRequestConfig (sampleRequest "static").Header).2 = none ∧
    (sampleEnv.ParseUrl
      (sampleEnv.GetRequestConfig (sampleRequest "static").Header).1.DestinationUrl).2 = none ∧
    staticProvider.GetSecret "s1" = ("tok123", none) ∧
    (GetRequestRewriteDetails sampleEnv noEffects (sampleRequest "static")
        sampleProviders).eff.rw = [] ∧
    (GetRequestRewriteDetails sampleEnv noEffects (sampleRequest "static") sampleProviders).url =
      some "https://api.example.com/v1" ∧
    (GetRequestRewriteDetails sampleEnv noEffects (sampleRequest "static")
        sampleProviders).headerKey = "Authorization" ∧
    (GetRequestRewriteDetails sampleEnv noEffects (sampleRequest "static")
        sampleProviders).headerVal = "Bearer tok123" ∧
    (GetRequestRewriteDetails sampleEnv noEffects (sampleRequest "static")
        sampleProviders).eff.events = [Event.lookup "static", Event.getSecret "static" "s1"] :=
  ⟨by decide, by decide, by decide,
    GetRequestRewriteDetails_success sampleEnv noEffects (sampleRequest "static") sampleProviders
      staticProvider "tok123" "Authorization" "Bearer tok123" (by decide) (by decide) rfl
      (by decide) (by decide)⟩

/-- Once configuration extraction and URL parsing have succeeded, the returned
`url` is the resolved destination whatever the later stages do. -/
theorem GetRequestRewriteDetails_url (env : Env U) (st : Effects) (r : Request U)
    (providers : List (String × Provider))
    (hcfg : (env.GetRequestConfig r.Header).2 = none)
    (hurl : (env.ParseUrl (env.GetRequestConfig r.Header).1.DestinationUrl).2 = none) :
    (GetRequestRewriteDetails env st r providers).url =
      env.GetUrlWithSchemeAndHost
        (env.ParseUrl (env.GetRequestConfig r.Header).1.DestinationUrl).1 := by
  cases hl : providers.lookup (env.GetRequestConfig r.Header).1.SecretProvider with
  | none =>
    simp [GetRequestRewriteDetails, getRequestConfig, hcfg, parseDestinationUrl, hurl,
      getProvider, hl]
  | some p =>
    cases hs : (p.GetSecret (env.GetRequestConfig r.Header).1.SecretId).2 with
    | some e =>
      simp [GetRequestRewriteDetails, getRequestConfig, hcfg, parseDestinationUrl, hurl,
        getProvider, hl, getSecret, hs]
    | none =>
      simp [GetRequestRewriteDetails, getRequestConfig, hcfg, parseDestinationUrl, hurl,
        getProvider, hl, getSecret, hs, getHeader]

/-- Claim C3, amended: either every stage succeeded, no response is written
and `url`, `headerKey` and `headerVal` are the values the stages produced; or
one response with status 400 is written and the results are those assigned up
to the failing stage: nil and empty after a configuration error, the value
`ParseUrl` returned and empty strings after a URL error, the resolved URL and
empty strings after a provider or secret error, the resolved URL and the
strings `GetHeaderFromTemplate` returned after a template error. The resolved
URL is what `GetUrlWithSchemeAndHost` returns for the parsed destination, so
after a failure that follows URL parsing `url` is not nil whenever that value
is not nil. -/
theorem GetRequestRewriteDetails_results_by_stage (env : Env U) (st : Effects)
    (r : Request U) (providers : List (String × Provider)) :
    let d := GetRequestRewriteDetails env st r providers
    let cfg := env.GetRequestConfig r.Header
    let pu := env.ParseUrl cfg.1.DestinationUrl
    let u := env.GetUrlWithSchemeAndHost pu.1
    ((d.eff.rw = st.rw ∧ d.url = u ∧ cfg.2 = none ∧ pu.2 = none ∧
      ∃ p secret, providers.lookup cfg.1.SecretProvider = some p ∧
        p.GetSecret cfg.1.SecretId = (secret, none) ∧
        env.GetHeaderFromTemplate cfg.1.HeaderTemplate secret = (d.headerKey, d.headerVal, none)) ∨
    ((∃ msg : String,
        d.eff.rw = st.rw ++ [{ status := 400, body := env.MakeHasuraError msg ++ "\n" }]) ∧
      ((cfg.2 ≠ none ∧ d.url = none ∧ d.headerKey = "" ∧ d.headerVal = "") ∨
       (cfg.2 = none ∧ pu.2 ≠ none ∧ d.url = pu.1 ∧ d.headerKey = "" ∧ d.headerVal = "") ∨
       (cfg.2 = none ∧ pu.2 = none ∧ providers.lookup cfg.1.SecretProvider = none ∧
          d.url = u ∧ d.headerKey = "" ∧ d.headerVal = "") ∨
       (cfg.2 = none ∧ pu.2 = none ∧
          (∃ p, providers.lookup cfg.1.SecretProvider = some p ∧
            (p.GetSecret cfg.1.SecretId).2 ≠ none) ∧
          d.url = u ∧ d.headerKey = "" ∧ d.headerVal = "") ∨
       (cfg.2 = none ∧ pu.2 = none ∧
          (∃ p, providers.lookup cfg.1.SecretProvider = some p ∧
            (p.GetSecret cfg.1.SecretId).2 = none ∧
            (env.GetHeaderFromTemplate cfg.1.HeaderTemplate (p.GetSecret cfg.1.SecretId).1).2.2 ≠ none ∧
            d.headerKey =
              (env.GetHeaderFromTemplate cfg.1.HeaderTemplate (p.GetSecret cfg.1.SecretId).1).1 ∧
            d.headerVal =
              (env.GetHeaderFromTemplate cfg.1.HeaderTemplate (p.GetSecret cfg.1.SecretId).1).2.1) ∧
          d.url = u)))) ∧
    (cfg.2 = none → pu.2 = none → d.url = u ∧ (u ≠ none → d.url ≠ none)) := by
  intro d cfg pu u
  refine ⟨?_, fun hc hp =>
    have hu := GetRequestRewriteDetails_url env st r providers hc hp
    ⟨hu, fun hne h => hne (hu.symm.trans h)⟩⟩
  cases hc : cfg.2 with
  | some e =>
    right
    refine ⟨⟨e, ?_⟩, Or.inl ⟨by simp, ?_, ?_, ?_⟩⟩ <;>
      simp [d, GetRequestRewriteDetails, getRequestConfig, cfg, show (env.GetRequestConfig r.Header).2 = some e from hc, httpError, StatusBadRequest]
  | none =>
    have hc1 : (env.GetRequestConfig r.Header).2 = none := hc
    cases hp : pu.2 with
    | some e =>
      have hp1 : (env.ParseUrl (env.GetRequestConfig r.Header).1.DestinationUrl).2 = some e := hp
      right
      refine ⟨⟨e, ?_⟩, Or.inr (Or.inl ⟨rfl, by simp, ?_, ?_, ?_⟩)⟩ <;>
        simp [d, pu, cfg, GetRequestRewriteDetails, getRequestConfig, hc1, parseDestinationUrl, hp1, httpError, StatusBadRequest]
    | none =>
      have hp1 : (env.ParseUrl (env.GetRequestConfig r.Header).1.DestinationUrl).2 = none := hp
      cases hl : providers.lookup cfg.1.SecretProvider with
      | none =>
        have hl1 : providers.lookup (env.GetRequestConfig r.Header).1.SecretProvider = none := hl
        right
        refine ⟨⟨providerErrMsg env cfg.1, ?_⟩, Or.inr (Or.inr (Or.inl ⟨rfl, rfl, rfl, ?_, ?_, ?_⟩))⟩ <;>
          simp [d, u, pu, cfg, GetRequestRewriteDetails, getRequestConfig, hc1, parseDestinationUrl, hp1, getProvider, hl1, httpError, StatusBadRequest]
      | some p =>
        have hl1 : providers.lookup (env.GetRequestConfig r.Header).1.SecretProvider = some p := hl
        cases hs : (p.GetSecret cfg.1.SecretId).2 with
        | some e =>
          have hs1 : (p.GetSecret (env.GetRequestConfig r.Header).1.SecretId).2 = some e := hs
          right
          refine ⟨⟨secretErrMsg env cfg.1, ?_⟩, Or.inr (Or.inr (Or.inr (Or.inl ⟨rfl, rfl, ⟨p, rfl, by simp [hs]⟩, ?_, ?_, ?_⟩)))⟩ <;>
            simp [d, u, pu, cfg, GetRequestRewriteDetails, getRequestConfig, hc1, parseDestinationUrl, hp1, getProvider, hl1, getSecret, hs1, httpError, StatusBadRequest]
        | none =>
          have hs1 : (p.GetSecret (env.GetRequestConfig r.Header).1.SecretId).2 = none := hs
          cases ht : (env.GetHeaderFromTemplate cfg.1.HeaderTemplate (p.GetSecret cfg.1.SecretId).1).2.2 with
          | some e =>
            have ht1 : (env.GetHeaderFromTemplate (env.GetRequestConfig r.Header).1.HeaderTemplate (p.GetSecret (env.GetRequestConfig r.Header).1.SecretId).1).2.2 = some e := ht
            right
            refine ⟨⟨templateErrMsg env cfg.1, ?_⟩, Or.inr (Or.inr (Or.inr (Or.inr ⟨rfl, rfl, ⟨p, rfl, hs, by simp [ht], ?_, ?_⟩, ?_⟩)))⟩ <;>
              simp [d, u, pu, cfg, GetRequestRewriteDetails, getRequestConfig, hc1, parseDestinationUrl, hp1, getProvider, hl1, getSecret, hs1, getHeader, ht1, httpError, StatusBadRequest]
          | none =>
            have ht1 : (env.GetHeaderFromTemplate (env.GetRequestConfig r.Header).1.HeaderTemplate (p.GetSecret (env.GetRequestConfig r.Header).1.SecretId).1).2.2 = none := ht
            left
            refine ⟨?_, ?_, rfl, rfl, p, (p.GetSecret cfg.1.SecretId).1, rfl, ?_, ?_⟩
            · simp [d, cfg, GetRequestRewriteDetails, getRequestConfig, hc1, parseDestinationUrl, hp1, getProvider, hl1, getSecret, hs1, getHeader, ht1]
            · simp [d, u, pu, cfg, GetRequestRewriteDetails, getRequestConfig, hc1, parseDestinationUrl, hp1, getProvider, hl1, getSecret, hs1, getHeader, ht1]
            · exact Prod.ext rfl hs
            · refine Prod.ext ?_ (Prod.ext ?_ ?_)
              · simp [d, cfg, GetRequestRewriteDetails, getRequestConfig, hc1, parseDestinationUrl, hp1, getProvider, hl1, getSecret, hs1, getHeader, ht1]
              · simp [d, cfg, GetRequestRewriteDetails, getRequestConfig, hc1, parseDestinationUrl, hp1, getProvider, hl1, getSecret, hs1, getHeader, ht1]
              · exact ht

/-- The theorem of claim C3 at a request that names the provider `unknown`:
the returned `url` is not nil. -/
theorem GetRequestRewriteDetails_results_by_stage_witness :
    (sampleEnv.GetRequestConfig (sampleRequest "unknown").Header).2 = none ∧
    (sampleEnv.ParseUrl
      (sampleEnv.GetRequestConfig (sampleRequest "unknown").Header).1.DestinationUrl).2 = none ∧
    (GetRequestRewriteDetails sampleEnv noEffects (sampleRequest "unknown") sampleProviders).url =
      some "https://api.example.com/v1" ∧
    (GetRequestRewriteDetails sampleEnv noEffects (sampleRequest "unknown")
      sampleProviders).url ≠ none :=
  ⟨by decide, by decide,
    ((GetRequestRewriteDetails_results_by_stage sampleEnv noEffects (sampleRequest "unknown")
      sampleProviders).2 (by decide) (by decide)).1.trans (by decide),
    ((GetRequestRewriteDetails_results_by_stage sampleEnv noEffects (sampleRequest "unknown")
      sampleProviders).2 (by decide) (by decide)).2 (by decide)⟩

/-- Keys that survive `Header.Del`. -/
theorem Del_keys (h : Header) (key : String) (x : String)
    (hx : x ∈ (h.Del key).map Prod.fst) : x ∈ h.map Prod.fst ∧ x ≠ CanonicalMIMEHeaderKey key := by
  simp only [Header.Del, List.mem_map, List.mem_filter] at hx
  obtain ⟨e, ⟨he, hne⟩, rfl⟩ := hx
  exact ⟨List.mem_map.mpr ⟨e, he, rfl⟩, by simpa using hne⟩

/-- Keys that survive the deletion of every reserved header. -/
theorem foldl_Del_keys (ks : List String) (h : Header) (x : String)
    (hx : x ∈ (ks.foldl Header.Del h).map Prod.fst) :
    x ∈ h.map Prod.fst ∧ ∀ k ∈ ks, x ≠ CanonicalMIMEHeaderKey k := by
  induction ks generalizing h with
  | nil => exact ⟨hx, by simp⟩
  | cons k ks ih =>
    obtain ⟨h1, h2⟩ := ih (h.Del k) hx
    obtain ⟨h3, h4⟩ := Del_keys h k x h1
    refine ⟨h3, ?_⟩
    intro k1 hk1
    rcases List.mem_cons.mp hk1 with rfl | hk
    · exact h4
    · exact h2 k1 hk

/-- Claim C4, amended: for a non-nil `url` the rewriter completes, the header
named by `headerKey` carries exactly `headerVal`, and every header of the
outbound request whose name is the canonical form of a reserved name is that
header: reserved headers of the incoming request are gone, a reserved name
survives only when `headerKey` itself canonicalises to it. -/
theorem GetRequestRewriter_strips_reserved (env : Env U) (rewriteRequestURL : U → U → U) (t : U)
    (headerKey headerVal : String) (req : ProxyRequest U) :
    ∃ req1, GetRequestRewriter env rewriteRequestURL (some t) headerKey headerVal req = some req1 ∧
      (CanonicalMIMEHeaderKey headerKey, [headerVal]) ∈ req1.Out.Header ∧
      ∀ name ∈ req1.Out.Header.map Prod.fst,
        name ∈ env.RequestConfigs.map CanonicalMIMEHeaderKey →
          name = CanonicalMIMEHeaderKey headerKey := by
  refine ⟨_, rfl, ?_, ?_⟩
  · simp [SetURL, Header.Set]
  intro name hname hres
  simp only [SetURL, Header.Set, List.map_cons, List.mem_cons] at hname
  rcases hname with h | h
  · exact h
  · exfalso
    have h1 : name ∈ (List.foldl Header.Del req.Out.Header env.RequestConfigs).map Prod.fst := by
      simp only [List.mem_map, List.mem_filter] at h ⊢
      obtain ⟨e, ⟨he, _⟩, rfl⟩ := h
      exact ⟨e, he, rfl⟩
    obtain ⟨_, h2⟩ := foldl_Del_keys _ _ _ h1
    obtain ⟨k, hk, rfl⟩ := List.mem_map.mp hres
    exact h2 k hk rfl

/-- The theorem of claim C4 at a request that carries the reserved headers. -/
theorem GetRequestRewriter_strips_reserved_witness :
    (GetRequestRewriter sampleEnv sampleRewriteURL (some "https://api.example.com/v1")
        "Authorization" "Bearer tok123" sampleProxyRequest).map (fun q => q.Out.Header) =
      some [("Authorization", ["Bearer tok123"]), ("Accept", ["text/html"])] ∧
    ∃ req1, GetRequestRewriter sampleEnv sampleRewriteURL (some "https://api.example.com/v1")
        "Authorization" "Bearer tok123" sampleProxyRequest = some req1 ∧
      (CanonicalMIMEHeaderKey "Authorization", ["Bearer tok123"]) ∈ req1.Out.Header ∧
      ∀ name ∈ req1.Out.Header.map Prod.fst,
        name ∈ sampleEnv.RequestConfigs.map CanonicalMIMEHeaderKey →
          name = CanonicalMIMEHeaderKey "Authorization" :=
  ⟨by decide,
    GetRequestRewriter_strips_reserved sampleEnv sampleRewriteURL "https://api.example.com/v1"
      "Authorization" "Bearer tok123" sampleProxyRequest⟩

/-- Counterexample to claim C4 as stated: with a reserved name as `headerKey`
the outbound request carries a reserved configuration header after the
rewriter has run. -/
theorem GetRequestRewriter_sets_reserved_header :
    "X-Hasura-Forward-To" ∈ sampleEnv.RequestConfigs ∧
    (GetRequestRewriter sampleEnv sampleRewriteURL (some "https://api.example.com/v1")
        "X-Hasura-Forward-To" "leak" sampleProxyRequest).map (fun q => q.Out.Header) =
      some [("X-Hasura-Forward-To", ["leak"]), ("Accept", ["text/html"])] := by
  decide

end server
namespace aws_iam_auth_rds

/-- The method `getSecret` changes nothing but the log. -/
theorem getSecret_file (provider : AWSIAMAuthRDSFile) (o : Oracle) (w : World) :
    (getSecret provider o w).2.file = w.file ∧
    (getSecret provider o w).2.stdout = w.stdout ∧
    (getSecret provider o w).2.sleeps = w.sleeps ∧
    (getSecret provider o w).2.lastGood = w.lastGood := by
  cases h1 : o.LoadDefaultConfig with
  | some e => simp [getSecret, h1, logMsg]
  | none =>
    cases h2 : (o.BuildAuthToken (provider.DBHost ++ ":" ++ toString provider.DBPort)
        provider.Region provider.DBUser).2 with
    | some e => simp [getSecret, h1, h2, logMsg]
    | none => simp [getSecret, h1, h2]

/-- The result of `getSecret` does not depend on the state. -/
theorem getSecret_result_indep (provider : AWSIAMAuthRDSFile) (o : Oracle) (w w1 : World) :
    (getSecret provider o w).1 = (getSecret provider o w1).1 := by
  cases h1 : o.LoadDefaultConfig with
  | some e => simp [getSecret, h1]
  | none =>
    cases h2 : (o.BuildAuthToken (provider.DBHost ++ ":" ++ toString provider.DBPort)
        provider.Region provider.DBUser).2 with
    | some e => simp [getSecret, h1, h2]
    | none => simp [getSecret, h1, h2]

/-- The iteration when minting fails. -/
theorem loopBody_mint_err (provider : AWSIAMAuthRDSFile) (o : Oracle) (w : World) (e : String)
    (hm : (getSecret provider o w).1.2 = some e) :
    loopBody provider o w = some (timeSleep provider.refreshInterval (getSecret provider o w).2) := by
  simp only [loopBody, hm]

/-- The iteration when `sql.Open` fails. -/
theorem loopBody_open_err (provider : AWSIAMAuthRDSFile) (o : Oracle) (w : World) (e : String)
    (hm : (getSecret provider o w).1.2 = none)
    (ho : o.sqlOpen "postgres" (dsn provider (getSecret provider o w).1.1) = some e) :
    loopBody provider o w = some (timeSleep provider.refreshInterval
      (logMsg "error" (some e) "failed to connect with generated token" [] (printed provider o w))) := by
  simp only [loopBody, hm, ho, printed]

/-- The iteration when `db.Ping` fails. -/
theorem loopBody_ping_err (provider : AWSIAMAuthRDSFile) (o : Oracle) (w : World) (e : String)
    (hm : (getSecret provider o w).1.2 = none)
    (ho : o.sqlOpen "postgres" (dsn provider (getSecret provider o w).1.1) = none)
    (hp : o.Ping = some e) :
    loopBody provider o w = some (timeSleep provider.refreshInterval
      (logMsg "error" (some e) "failed to ping the database with the generated token" []
        (printed provider o w))) := by
  simp only [loopBody, hm, ho, hp, printed]

/-- The iteration when the token is validated, for a provider with a mutex. -/
theorem loopBody_write (provider : AWSIAMAuthRDSFile) (o : Oracle) (w : World) (m : Mutex)
    (hmu : provider.mu = some m)
    (hm : (getSecret provider o w).1.2 = none)
    (ho : o.sqlOpen "postgres" (dsn provider (getSecret provider o w).1.1) = none)
    (hp : o.Ping = none) :
    loopBody provider o w =
      match (osWriteFile o.WriteFile (getSecret provider o w).1.1 (printed provider o w).file).2 with
      | some e =>
        some (timeSleep provider.refreshInterval
          (logMsg "error" (some e) "failed to write token to a file. Retrying ..." []
            (logMsg "error" (some e) "error occurred while writing secret to file %s"
              [provider.FilePath]
              { printed provider o w with
                file := (osWriteFile o.WriteFile (getSecret provider o w).1.1
                  (printed provider o w).file).1 })))
      | none =>
        some (timeSleep provider.refreshInterval
          (logMsg "info" none
            "successfully fetched IAM Token and written to the file. Fetching again in %s"
            [toString provider.refreshInterval]
            { printed provider o w with
              file := (osWriteFile o.WriteFile (getSecret provider o w).1.1
                (printed provider o w).file).1
              lastGood := some (getSecret provider o w).1.1 })) := by
  simp only [loopBody, hm, ho, hp, writeFile, hmu, printed]
  cases (osWriteFile o.WriteFile (getSecret provider o w).1.1 (getSecret provider o w).2.file).2 <;> rfl

/-- The effect of one iteration on the sleeps and on standard output, for a
provider with a mutex. -/
theorem loopBody_effects (provider : AWSIAMAuthRDSFile) (o : Oracle) (w : World) (m : Mutex)
    (hmu : provider.mu = some m) :
    ∃ w1, loopBody provider o w = some w1 ∧
      w1.sleeps = w.sleeps ++ [provider.refreshInterval] ∧
      ((getSecret provider o w).1.2 = none →
        w1.stdout = w.stdout ++ ["DSN\n", dsn provider (getSecret provider o w).1.1 ++ "\n"]) := by
  obtain ⟨-, hso, hsl, -⟩ := getSecret_file provider o w
  cases hm : (getSecret provider o w).1.2 with
  | some e => exact ⟨_, loopBody_mint_err provider o w e hm, by simp [timeSleep, hsl], by simp⟩
  | none =>
    cases ho : o.sqlOpen "postgres" (dsn provider (getSecret provider o w).1.1) with
    | some e =>
      exact ⟨_, loopBody_open_err provider o w e hm ho, by simp [timeSleep, logMsg, printed, hsl],
        by simp [timeSleep, logMsg, printed, hso]⟩
    | none =>
      cases hp : o.Ping with
      | some e =>
        exact ⟨_, loopBody_ping_err provider o w e hm ho hp,
          by simp [timeSleep, logMsg, printed, hsl], by simp [timeSleep, logMsg, printed, hso]⟩
      | none =>
        rw [loopBody_write provider o w m hmu hm ho hp]
        cases (osWriteFile o.WriteFile (getSecret provider o w).1.1 (printed provider o w).file).2 with
        | some e =>
          exact ⟨_, rfl, by simp [timeSleep, logMsg, printed, hsl],
            by simp [timeSleep, logMsg, printed, hso]⟩
        | none =>
          exact ⟨_, rfl, by simp [timeSleep, logMsg, printed, hsl],
            by simp [timeSleep, logMsg, printed, hso]⟩

/-- The loop sleeps once per iteration. -/
theorem loop_sleeps (provider : AWSIAMAuthRDSFile) (m : Mutex) (hmu : provider.mu = some m)
    (os : List Oracle) (w : World) :
    ∃ w1, loop provider os w = some w1 ∧
      w1.sleeps = w.sleeps ++ List.replicate os.length provider.refreshInterval := by
  induction os generalizing w with
  | nil => exact ⟨w, rfl, by simp⟩
  | cons o os ih =>
    obtain ⟨w1, h1, h2, -⟩ := loopBody_effects provider o w m hmu
    obtain ⟨w2, h3, h4⟩ := ih w1
    refine ⟨w2, by simp only [loop, h1, h3], ?_⟩
    rw [h4, h2, List.length_cons, List.replicate_succ, List.append_assoc]
    rfl

/-- What `New` sets on the provider it returns. -/
theorem New_ok {C B : Type} (Marshal : C → B × Option String)
    (Unmarshal : B → AWSIAMAuthRDSFile × Option String) (inputCfg : C)
    (provider : AWSIAMAuthRDSFile)
    (hnew : New Marshal Unmarshal inputCfg = (some provider, none)) :
    provider.refreshInterval = 300 * Second ∧ provider.mu = some {} := by
  unfold New at hnew
  cases h1 : (Marshal inputCfg).2 with
  | some e => simp [h1] at hnew
  | none =>
    cases h2 : (Unmarshal (Marshal inputCfg).1).2 with
    | some e => simp [h1, h2] at hnew
    | none =>
      simp only [h1, h2, Prod.mk.injEq, Option.some.injEq, and_true] at hnew
      subst hnew
      exact ⟨rfl, rfl⟩

/-- Claim C5: a loop iteration in which minting, `sql.Open` or `db.Ping`
fails completes and leaves the cache file as it was, and a `Refresh` in which
minting fails returns the error and leaves the cache file as it was. -/
theorem failed_attempt_keeps_cache (provider : AWSIAMAuthRDSFile) (o : Oracle) (w : World)
    (hfail : (getSecret provider o w).1.2 ≠ none ∨
      o.sqlOpen "postgres" (dsn provider (getSecret provider o w).1.1) ≠ none ∨
      o.Ping ≠ none) :
    (∃ w1, loopBody provider o w = some w1 ∧ w1.file = w.file) ∧
    ((getSecret provider o w).1.2 ≠ none →
      ∃ e w1, Refresh provider o w = some (some e, w1) ∧ w1.file = w.file) := by
  have hf := (getSecret_file provider o w).1
  constructor
  · cases hm : (getSecret provider o w).1.2 with
    | some e => exact ⟨_, loopBody_mint_err provider o w e hm, by simp [timeSleep, hf]⟩
    | none =>
      cases ho : o.sqlOpen "postgres" (dsn provider (getSecret provider o w).1.1) with
      | some e =>
        exact ⟨_, loopBody_open_err provider o w e hm ho, by simp [timeSleep, logMsg, printed, hf]⟩
      | none =>
        cases hp : o.Ping with
        | some e =>
          exact ⟨_, loopBody_ping_err provider o w e hm ho hp,
            by simp [timeSleep, logMsg, printed, hf]⟩
        | none => simp [hm, ho, hp] at hfail
  · intro hm
    obtain ⟨e, he⟩ := Option.ne_none_iff_exists'.mp hm
    exact ⟨e, (getSecret provider o w).2, by simp only [Refresh, he], hf⟩

/-- The theorem of claim C5 at a failing mint over a cache that holds a token. -/
theorem failed_attempt_keeps_cache_witness :
    ((getSecret sampleProvider mintFails cachedWorld).1.2 ≠ none ∨
      mintFails.sqlOpen "postgres"
        (dsn sampleProvider (getSecret sampleProvider mintFails cachedWorld).1.1) ≠ none ∨
      mintFails.Ping ≠ none) ∧
    (∃ w1, loopBody sampleProvider mintFails cachedWorld = some w1 ∧ w1.file = cachedWorld.file) ∧
    ((getSecret sampleProvider mintFails cachedWorld).1.2 ≠ none →
      ∃ e w1, Refresh sampleProvider mintFails cachedWorld = some (some e, w1) ∧
        w1.file = cachedWorld.file) :=
  ⟨Or.inl (by decide),
    failed_attempt_keeps_cache sampleProvider mintFails cachedWorld (Or.inl (by decide))⟩

/-- Claim C9: for a provider returned by `New`, whatever the decoded
configuration, every loop iteration completes with exactly one sleep, of 300
seconds, and the loop goes on with the next attempt; `Start` run over any
sequence of outcomes performs all the iterations, one sleep of 300 seconds each. -/
theorem loop_iteration_sleeps_once_and_continues {C B : Type} (Marshal : C → B × Option String)
    (Unmarshal : B → AWSIAMAuthRDSFile × Option String) (inputCfg : C)
    (provider : AWSIAMAuthRDSFile)
    (hnew : New Marshal Unmarshal inputCfg = (some provider, none)) :
    (∀ (o : Oracle) (w : World), ∃ w1, loopBody provider o w = some w1 ∧
      w1.sleeps = w.sleeps ++ [300 * Second] ∧
      ∀ os, loop provider (o :: os) w = loop provider os w1) ∧
    (∀ (init : WriteOutcome) (os : List Oracle) (w : World),
      ∃ w1, Start provider init os w = some w1 ∧
        w1.sleeps = w.sleeps ++ List.replicate os.length (300 * Second)) := by
  obtain ⟨hri, hmu⟩ := New_ok Marshal Unmarshal inputCfg provider hnew
  constructor
  · intro o w
    obtain ⟨w1, h1, h2, -⟩ := loopBody_effects provider o w _ hmu
    exact ⟨w1, h1, by rw [h2, hri], fun os => by simp only [loop, h1]⟩
  · intro init os w
    obtain ⟨w1, h1, h2⟩ := loop_sleeps provider _ hmu os
      (match (osWriteFile init "" w.file).2 with
        | some e =>
          logMsg "error" (some e) "error occured while writing to a file :%s" [provider.FilePath]
            { w with file := (osWriteFile init "" w.file).1, lastGood := none }
        | none => { w with file := (osWriteFile init "" w.file).1, lastGood := none })
    refine ⟨w1, h1, ?_⟩
    rw [h2, hri]
    cases (osWriteFile init "" w.file).2 <;> simp [logMsg]

/-- The theorem of claim C9 at a configuration that carries a refresh value. -/
theorem loop_iteration_sleeps_once_and_continues_witness :
    New (fun (_ : List (String × String)) => ("", none)) sampleUnmarshal [("refresh", "7")] =
      (some sampleProvider, none) ∧
    (∀ (o : Oracle) (w : World), ∃ w1, loopBody sampleProvider o w = some w1 ∧
      w1.sleeps = w.sleeps ++ [300 * Second] ∧
      ∀ os, loop sampleProvider (o :: os) w = loop sampleProvider os w1) ∧
    (∀ (init : WriteOutcome) (os : List Oracle) (w : World),
      ∃ w1, Start sampleProvider init os w = some w1 ∧
        w1.sleeps = w.sleeps ++ List.replicate os.length (300 * Second)) :=
  ⟨by decide,
    loop_iteration_sleeps_once_and_continues (fun (_ : List (String × String)) => ("", none))
      sampleUnmarshal [("refresh", "7")] sampleProvider (by decide)⟩

/-- One iteration with an all-or-nothing write, against the outcomes: the file
holds the token when mint, `sql.Open`, `db.Ping` and the write all succeeded,
and is left as it was in every other case; `lastGood` follows. -/
theorem loopBody_file (provider : AWSIAMAuthRDSFile) (m : Mutex) (hmu : provider.mu = some m)
    (o : Oracle) (w : World) (ho : o.WriteFile.allOrNothing = true) :
    ∃ w1, loopBody provider o w = some w1 ∧
      w1.file = (validatedToken provider o).or w.file ∧
      w1.lastGood = (validatedToken provider o).or w.lastGood := by
  obtain ⟨hf, -, -, hg⟩ := getSecret_file provider o w
  cases h1 : o.LoadDefaultConfig with
  | some e =>
    have hm : (getSecret provider o w).1.2 = some e := by simp [getSecret, h1]
    have hv : validatedToken provider o = none := by simp [validatedToken, h1]
    exact ⟨_, loopBody_mint_err provider o w e hm, by simp [hv, timeSleep, hf],
      by simp [hv, timeSleep, hg]⟩
  | none =>
    rcases h2 : o.BuildAuthToken (provider.DBHost ++ ":" ++ toString provider.DBPort)
        provider.Region provider.DBUser with ⟨tok, _ | e⟩
    · have hr : (getSecret provider o w).1 = (tok, none) := by simp [getSecret, h1, h2]
      have hm : (getSecret provider o w).1.2 = none := by rw [hr]
      have ht : (getSecret provider o w).1.1 = tok := by rw [hr]
      cases hop : o.sqlOpen "postgres" (dsn provider tok) with
      | some e =>
        have hv : validatedToken provider o = none := by simp [validatedToken, h1, h2, hop]
        exact ⟨_, loopBody_open_err provider o w e hm (by rw [ht]; exact hop),
          by simp [hv, timeSleep, logMsg, printed, hf],
          by simp [hv, timeSleep, logMsg, printed, hg]⟩
      | none =>
        cases hp : o.Ping with
        | some e =>
          have hv : validatedToken provider o = none := by
            simp [validatedToken, h1, h2, hop, hp]
          exact ⟨_, loopBody_ping_err provider o w e hm (by rw [ht]; exact hop) hp,
            by simp [hv, timeSleep, logMsg, printed, hf],
            by simp [hv, timeSleep, logMsg, printed, hg]⟩
        | none =>
          rw [loopBody_write provider o w m hmu hm (by rw [ht]; exact hop) hp]
          cases hw : o.WriteFile with
          | ok =>
            have hv : validatedToken provider o = some tok := by
              simp [validatedToken, h1, h2, hop, hp, hw]
            exact ⟨_, rfl, by simp [hv, timeSleep, logMsg, osWriteFile, ht],
              by simp [hv, timeSleep, logMsg, osWriteFile, ht]⟩
          | openErr e =>
            have hv : validatedToken provider o = none := by
              simp [validatedToken, h1, h2, hop, hp, hw]
            exact ⟨_, rfl, by simp [hv, timeSleep, logMsg, printed, osWriteFile, hf],
              by simp [hv, timeSleep, logMsg, printed, osWriteFile, hg]⟩
          | writeErr n e => simp [hw, WriteOutcome.allOrNothing] at ho
    · have hm : (getSecret provider o w).1.2 = some e := by simp [getSecret, h1, h2]
      have hv : validatedToken provider o = none := by simp [validatedToken, h1, h2]
      exact ⟨_, loopBody_mint_err provider o w e hm, by simp [hv, timeSleep, hf],
        by simp [hv, timeSleep, hg]⟩

/-- The loop with all-or-nothing writes, against the outcomes. -/
theorem loop_file (provider : AWSIAMAuthRDSFile) (m : Mutex) (hmu : provider.mu = some m)
    (os : List Oracle) (w : World) (hos : ∀ o ∈ os, o.WriteFile.allOrNothing = true) :
    ∃ w1, loop provider os w = some w1 ∧
      w1.file = (lastValidated provider os).or w.file ∧
      w1.lastGood = (lastValidated provider os).or w.lastGood := by
  induction os generalizing w with
  | nil => exact ⟨w, rfl, by simp [lastValidated], by simp [lastValidated]⟩
  | cons o os ih =>
    obtain ⟨w1, h1, h2, h3⟩ := loopBody_file provider m hmu o w (hos o (List.mem_cons_self _ _))
    obtain ⟨w2, h4, h5, h6⟩ := ih w1 (fun o1 ho1 => hos o1 (List.mem_cons_of_mem _ ho1))
    refine ⟨w2, by simp only [loop, h1, h4], ?_, ?_⟩
    · rw [h5, h2]
      cases hl : lastValidated provider os <;> simp [lastValidated, hl]
    · rw [h6, h3]
      cases hl : lastValidated provider os <;> simp [lastValidated, hl]

/-- Claim C6, amended: after `Start` has run any number of loop iterations
whose cache writes either succeed or fail without touching the file, the cache
file holds the token of the most recent iteration in which the mint,
`sql.Open`, `db.Ping` and the write all succeeded, or, when there is no such
iteration, what the initial write left (the empty content when that write
succeeded). A token that `sql.Open` or `db.Ping` rejects is never in the
cache. `Refresh` is left out: it writes without validating. -/
theorem loop_cache_invariant (provider : AWSIAMAuthRDSFile) (m : Mutex) (hmu : provider.mu = some m)
    (init : WriteOutcome) (os : List Oracle) (w : World)
    (hos : ∀ o ∈ os, o.WriteFile.allOrNothing = true) :
    ∃ w1, Start provider init os w = some w1 ∧
      w1.file = (lastValidated provider os).or (osWriteFile init "" w.file).1 ∧
      w1.lastGood = lastValidated provider os ∧
      (init = WriteOutcome.ok →
        w1.file = some "" ∨ ∃ t, lastValidated provider os = some t ∧ w1.file = some t) := by
  obtain ⟨w1, h1, h2, h3⟩ := loop_file provider m hmu os
    (match (osWriteFile init "" w.file).2 with
      | some e =>
        logMsg "error" (some e) "error occured while writing to a file :%s" [provider.FilePath]
          { w with file := (osWriteFile init "" w.file).1, lastGood := none }
      | none => { w with file := (osWriteFile init "" w.file).1, lastGood := none })
    hos
  have hfile : w1.file = (lastValidated provider os).or (osWriteFile init "" w.file).1 := by
    rw [h2]
    cases (osWriteFile init "" w.file).2 <;> simp [logMsg]
  have hgood : w1.lastGood = lastValidated provider os := by
    rw [h3]
    cases (osWriteFile init "" w.file).2 <;> cases lastValidated provider os <;> simp [logMsg]
  refine ⟨w1, h1, hfile, hgood, ?_⟩
  intro hinit
  subst hinit
  rw [hfile]
  cases hl : lastValidated provider os with
  | none => exact Or.inl (by simp [osWriteFile])
  | some t => exact Or.inr ⟨t, rfl, by simp⟩

/-- A state whose file holds a non-empty content while no token has been
validated and written does not satisfy `CacheInvariant`. -/
theorem not_CacheInvariant (w : World) (tok : String) (hf : w.file = some tok)
    (hne : tok ≠ "") (hg : w.lastGood = none) : ¬ CacheInvariant w := by
  rintro (h | ⟨t, h, -⟩)
  · rw [hf] at h
    exact hne (Option.some.inj h)
  · rw [hg] at h
    cases h

/-- Counterexample to claim C6 as stated: after a successful initialisation, a
`Refresh` leaves in the cache a token that no connection check has validated,
and a loop iteration whose write fails part-way leaves a fragment of a token;
in neither run has a loop iteration minted, validated and written a token. -/
theorem Refresh_writes_unvalidated_token :
    (∃ w1 w2, Start sampleProvider WriteOutcome.ok [] sampleWorld = some w1 ∧
      Refresh sampleProvider (mintOk "tokA") w1 = some (none, w2) ∧
      w2.file = some "tokA" ∧ w2.lastGood = none ∧ ¬ CacheInvariant w2) ∧
    (∃ w1, Start sampleProvider WriteOutcome.ok [writeTorn "tokA"] sampleWorld = some w1 ∧
      w1.file = some "to" ∧ w1.lastGood = none ∧ ¬ CacheInvariant w1) ∧
    lastValidated sampleProvider [] = none ∧
    lastValidated sampleProvider [writeTorn "tokA"] = none := by
  exact ⟨⟨_, _, rfl, rfl, rfl, rfl, not_CacheInvariant _ "tokA" rfl (by decide) rfl⟩,
    ⟨_, rfl, rfl, rfl, not_CacheInvariant _ "to" rfl (by decide) rfl⟩, by decide, by decide⟩

/-- The theorem of claim C6 at a cache that holds an earlier token: a validated
token is written, then `db.Ping` rejects one token, `sql.Open` another, and a
mint fails; the first token stays in the cache. -/
theorem loop_cache_invariant_witness :
    sampleProvider.mu = some {} ∧
    (∀ o ∈ [mintOk "tokA", pingFails "tokB", openFails "tokC", mintFails],
      o.WriteFile.allOrNothing = true) ∧
    lastValidated sampleProvider [mintOk "tokA", pingFails "tokB", openFails "tokC", mintFails] =
      some "tokA" ∧
    lastValidated sampleProvider [pingFails "tokB"] = none ∧
    (∃ w1, Start sampleProvider WriteOutcome.ok
        [mintOk "tokA", pingFails "tokB", openFails "tokC", mintFails] cachedWorld = some w1 ∧
      w1.file = some "tokA") ∧
    (∃ w1, Start sampleProvider (WriteOutcome.openErr "permission denied")
        [pingFails "tokB"] cachedWorld = some w1 ∧
      w1.file = some "old-token") :=
  ⟨rfl, by decide, by decide, by decide,
    (loop_cache_invariant sampleProvider {} rfl WriteOutcome.ok
      [mintOk "tokA", pingFails "tokB", openFails "tokC", mintFails] cachedWorld
      (by decide)).imp (fun _ h => ⟨h.1, h.2.1.trans (by decide)⟩),
    (loop_cache_invariant sampleProvider {} rfl (WriteOutcome.openErr "permission denied")
      [pingFails "tokB"] cachedWorld (by decide)).imp
      (fun _ h => ⟨h.1, h.2.1.trans (by decide)⟩)⟩

/-- Claim C7, amended: `getSecret` neither reads nor writes the cache file.
Its result is the same in every state: the error of `config.LoadDefaultConfig`
or of `auth.BuildAuthToken` with an empty string, or else the token that
`auth.BuildAuthToken` minted for `DBHost:DBPort`, `Region` and `DBUser`. -/
theorem getSecret_mints_and_ignores_cache (provider : AWSIAMAuthRDSFile) (o : Oracle) (w : World) :
    (getSecret provider o w).2.file = w.file ∧
    (∀ w1 : World, (getSecret provider o w1).1 = (getSecret provider o w).1) ∧
    (getSecret provider o w).1 =
      (match o.LoadDefaultConfig with
        | some e => ("", some e)
        | none =>
          match o.BuildAuthToken (provider.DBHost ++ ":" ++ toString provider.DBPort)
              provider.Region provider.DBUser with
          | (_, some e) => ("", some e)
          | (tok, none) => (tok, none)) := by
  refine ⟨(getSecret_file provider o w).1, fun w1 => getSecret_result_indep provider o w1 w, ?_⟩
  cases h1 : o.LoadDefaultConfig with
  | some e => simp [getSecret, h1]
  | none =>
    rcases h2 : o.BuildAuthToken (provider.DBHost ++ ":" ++ toString provider.DBPort)
        provider.Region provider.DBUser with ⟨tok, _ | e⟩
    · simp [getSecret, h1, h2]
    · simp [getSecret, h1, h2]

/-- Counterexample to claim C7 as stated: right after a successful
initialisation, with the cache empty and no refresh done, `getSecret` returns
the token `tokA` and no error, leaves the cache empty, and a second call
returns the different token `tokB`. -/
theorem getSecret_returns_fresh_token_on_empty_cache :
    ∃ w1, Start sampleProvider WriteOutcome.ok [] sampleWorld = some w1 ∧
      w1.file = some "" ∧
      (getSecret sampleProvider (mintOk "tokA") w1).1 = ("tokA", none) ∧
      (getSecret sampleProvider (mintOk "tokA") w1).2.file = some "" ∧
      (getSecret sampleProvider (mintOk "tokB")
        (getSecret sampleProvider (mintOk "tokA") w1).2).1 = ("tokB", none) :=
  ⟨_, rfl, rfl, rfl, rfl, rfl⟩

/-- The connection string ends in the password field and the database name. -/
theorem dsn_split (provider : AWSIAMAuthRDSFile) (tok : String) :
    dsn provider tok =
      ("host=" ++ provider.DBHost ++ " port=" ++ toString provider.DBPort ++ " user=" ++
        provider.DBUser) ++ (" password=" ++ tok ++ " dbname=" ++ provider.DBName) := by
  simp [dsn, String.append_assoc]

/-- Distinct tokens give distinct connection strings. -/
theorem dsn_injective (provider : AWSIAMAuthRDSFile) (tok tok2 : String)
    (h : dsn provider tok2 = dsn provider tok) : tok2 = tok := by
  have h1 := congrArg String.data h
  simp only [dsn, String.data_append, List.append_assoc] at h1
  have h2 := List.append_cancel_left h1
  have h3 := List.append_cancel_left h2
  have h4 := List.append_cancel_left h3
  have h5 := List.append_cancel_left h4
  have h6 := List.append_cancel_left h5
  have h7 := List.append_cancel_left h6
  have h8 : tok2.data ++ (" dbname=".data ++ provider.DBName.data) = tok.data ++ (" dbname=".data ++ provider.DBName.data) := by
    simpa using h7
  exact String.ext (List.append_cancel_right h8)

/-- Claim C10: in a loop iteration in which minting returns the token `tok`,
the iteration prints the line `DSN` and then the connection string, whatever
the later outcomes; the connection string holds `tok` verbatim after
`password=`; and an iteration that mints another token prints something else. -/
theorem loop_iteration_prints_token (provider : AWSIAMAuthRDSFile) (m : Mutex)
    (hmu : provider.mu = some m) (o : Oracle) (w : World) (tok : String)
    (hmint : (getSecret provider o w).1 = (tok, none)) :
    (∃ w1, loopBody provider o w = some w1 ∧
      w1.stdout = w.stdout ++ ["DSN\n", dsn provider tok ++ "\n"]) ∧
    dsn provider tok =
      ("host=" ++ provider.DBHost ++ " port=" ++ toString provider.DBPort ++ " user=" ++
        provider.DBUser) ++ (" password=" ++ tok ++ " dbname=" ++ provider.DBName) ∧
    (∀ (o2 : Oracle) (tok2 : String) (w1 w2 : World),
      (getSecret provider o2 w).1 = (tok2, none) → tok2 ≠ tok →
      loopBody provider o w = some w1 → loopBody provider o2 w = some w2 →
      w1.stdout ≠ w2.stdout) := by
  have hm : (getSecret provider o w).1.2 = none := by rw [hmint]
  have ht : (getSecret provider o w).1.1 = tok := by rw [hmint]
  obtain ⟨w1, h1, -, h3⟩ := loopBody_effects provider o w m hmu
  refine ⟨⟨w1, h1, by rw [h3 hm, ht]⟩, dsn_split provider tok, ?_⟩
  intro o2 tok2 v1 v2 hmint2 hne hv1 hv2 heq
  have hm2 : (getSecret provider o2 w).1.2 = none := by rw [hmint2]
  have ht2 : (getSecret provider o2 w).1.1 = tok2 := by rw [hmint2]
  obtain ⟨w2, h4, -, h5⟩ := loopBody_effects provider o2 w m hmu
  rw [h1] at hv1
  rw [h4] at hv2
  cases hv1
  cases hv2
  rw [h3 hm, h5 hm2, ht, ht2] at heq
  have h6 := List.append_cancel_left heq
  simp only [List.cons.injEq, and_true, true_and] at h6
  have h7 := congrArg String.data h6
  simp only [String.data_append] at h7
  exact hne (dsn_injective provider tok tok2 (String.ext (List.append_cancel_right h7.symm)))

/-- The theorem of claim C10 at a successful mint of the token `tokA`. -/
theorem loop_iteration_prints_token_witness :
    sampleProvider.mu = some {} ∧
    (getSecret sampleProvider (mintOk "tokA") sampleWorld).1 = ("tokA", none) ∧
    dsn sampleProvider "tokA" =
      "host=db.example.com port=5432 user=iam_user password=tokA dbname=app" ∧
    (∃ w1, loopBody sampleProvider (mintOk "tokA") sampleWorld = some w1 ∧
      w1.stdout = sampleWorld.stdout ++ ["DSN\n", dsn sampleProvider "tokA" ++ "\n"]) :=
  ⟨rfl, by decide, by decide,
    (loop_iteration_prints_token sampleProvider {} rfl (mintOk "tokA") sampleWorld "tokA"
      (by decide)).1⟩

end aws_iam_auth_rds
